import Mathlib

/-
Shallow embedding of `src/app.py` (WordPress CPT API and n8n agent generator).

The Python data flowing through the program is JSON-like (decoded response
bodies, dict literals passed to `json.dumps`).  We model it with the `Val`
type below.  Python dicts are modelled as ordered association lists, which
matches CPython's insertion-ordered dict semantics; `dict.get(k, d)` becomes
`(alookup kvs k).getD d`, and `d[k] = v` becomes `updList` (overwrite in
place if the key exists, append otherwise).  Code that can raise a Python
exception is modelled with `Except String`.
-/

namespace Cpt

/-- JSON-like values: the shape of the data `app.py` passes around. -/
inductive Val where
  | vStr (s : String)
  | vBool (b : Bool)
  | vNat (n : Nat)
  | vList (xs : List Val)
  | vDict (kvs : List (String × Val))

/-- First-match lookup in an association list, like a Python dict read. -/
def alookup {β : Type} : List (String × β) → String → Option β
  | [], _ => none
  | (k0, v0) :: rest, k => if k0 = k then some v0 else alookup rest k

/-- Python dict assignment `d[k] = v`: overwrite in place, else append. -/
def updList {β : Type} : List (String × β) → String → β → List (String × β)
  | [], k, v => [(k, v)]
  | (k0, v0) :: rest, k, v =>
      if k0 = k then (k0, v) :: rest else (k0, v0) :: updList rest k v

/-- Python truthiness of a `Val` (`if details.get('public', False):`). -/
def Val.truthy : Val → Bool
  | .vStr s => s ≠ ""
  | .vBool b => b
  | .vNat n => n ≠ 0
  | .vList xs => ¬ xs.isEmpty
  | .vDict kvs => ¬ kvs.isEmpty

/-- Whether a `Val` is a dict (only dicts answer Python's `.get`). -/
def Val.isDict : Val → Bool
  | .vDict _ => true
  | _ => false

/-- Dict field access on a `Val`. -/
def Val.dget : Val → String → Option Val
  | .vDict kvs, k => alookup kvs k
  | _, _ => none

/-- List indexing on a `Val`. -/
def Val.iget : Val → Nat → Option Val
  | .vList xs, i => xs.get? i
  | _, _ => none

/-- Top-level key list of a dict `Val`. -/
def Val.keysOf : Val → Option (List String)
  | .vDict kvs => some (kvs.map Prod.fst)
  | _ => none

/-- Remove one top-level key from a dict `Val` (other values unchanged). -/
def removeKey (v : Val) (k : String) : Val :=
  match v with
  | .vDict kvs => .vDict (kvs.filter (fun p => p.1 != k))
  | v => v

/-- The analysis dict built by `analyze_cpt_structure` (app.py:253-261). -/
structure Analysis where
  total_cpts : Nat
  public_cpts : List String
  private_cpts : List String
  hierarchical_cpts : List String
  supports : List (String × Val)
  taxonomies : List (String × Val)
  capabilities : List (String × Val)

/--
One iteration of the loop in `analyze_cpt_structure` (app.py:263-274).
`details.get` is only defined on dicts; on any other value Python raises
`AttributeError`, modelled as the error case.
-/
def analyzeStep (a : Analysis) (slug : String) (details : Val) : Except String Analysis :=
  match details with
  | .vDict kvs =>
      let a1 :=
        if (((alookup kvs "public").getD (.vBool false))).truthy then
          { a with public_cpts := a.public_cpts ++ [slug] }
        else
          { a with private_cpts := a.private_cpts ++ [slug] }
      let a2 :=
        if (((alookup kvs "hierarchical").getD (.vBool false))).truthy then
          { a1 with hierarchical_cpts := a1.hierarchical_cpts ++ [slug] }
        else a1
      .ok { a2 with
              supports := updList a2.supports slug ((alookup kvs "supports").getD (.vList [])),
              taxonomies := updList a2.taxonomies slug ((alookup kvs "taxonomies").getD (.vList [])),
              capabilities := updList a2.capabilities slug ((alookup kvs "cap").getD (.vDict [])) }
  | _ => .error "AttributeError"

/-- The loop of `analyze_cpt_structure`, threading the analysis record. -/
def analyzeEntries : List (String × Val) → Analysis → Except String Analysis
  | [], a => .ok a
  | (slug, details) :: rest, a =>
      match analyzeStep a slug details with
      | .ok a2 => analyzeEntries rest a2
      | .error e => .error e

/-- `analyze_cpt_structure` (app.py:249-276): `total_cpts` is `len(cpt_data)`,
the partitions start empty and are filled by one pass over the catalog. -/
def analyze_cpt_structure (cpt_data : List (String × Val)) : Except String Analysis :=
  analyzeEntries cpt_data
    { total_cpts := cpt_data.length
      public_cpts := []
      private_cpts := []
      hierarchical_cpts := []
      supports := []
      taxonomies := []
      capabilities := [] }

/-- Outcome of the post-fetch part of the main flow (app.py:814-830):
the fetched catalog is checked for emptiness (`if not cpt_data`), then
analyzed; an uncaught Python exception is the `crash` case. -/
inductive PipelineResult where
  | emptyState
  | success (a : Analysis)
  | crash (e : String)

/-- Main flow from a successfully fetched catalog (app.py:814-830):
empty catalog shows the empty-state warning and stops; otherwise
`analyze_cpt_structure` runs with no exception handler around it. -/
def mainFlow (cpt_data : List (String × Val)) : PipelineResult :=
  if cpt_data.isEmpty then .emptyState
  else
    match analyze_cpt_structure cpt_data with
    | .ok a => .success a
    | .error e => .crash e

/-- One field spec of the mapping built by `generate_field_mapping`
(values of the `base_fields` dict, app.py:283-296). -/
structure FieldSpec where
  ftype : String
  format : Option String := none
  enum : List String := []
  readonly : Bool := false
  description : String := ""

/-- The `base_fields` dict literal (app.py:283-296), in source order. -/
def base_fields : List (String × FieldSpec) :=
  [ ("id", { ftype := "integer", readonly := true,
             description := "Unique identifier for the post" }),
    ("date", { ftype := "string", format := some "date-time",
               description := "The date the post was published" }),
    ("date_gmt", { ftype := "string", format := some "date-time",
                   description := "The date the post was published, as GMT" }),
    ("guid", { ftype := "object", readonly := true,
               description := "The globally unique identifier for the post" }),
    ("modified", { ftype := "string", format := some "date-time", readonly := true,
                   description := "The date the post was last modified" }),
    ("modified_gmt", { ftype := "string", format := some "date-time", readonly := true,
                       description := "The date the post was last modified, as GMT" }),
    ("password", { ftype := "string",
                   description := "A password to protect access to the content and excerpt" }),
    ("slug", { ftype := "string",
               description := "An alphanumeric identifier for the post unique to its type" }),
    ("status", { ftype := "string",
                 enum := ["publish", "future", "draft", "pending", "private"],
                 description := "A named status for the post" }),
    ("type", { ftype := "string", readonly := true, description := "Type of post" }),
    ("link", { ftype := "string", format := some "uri", readonly := true,
               description := "URL to the post" }),
    ("meta", { ftype := "object", description := "Meta fields" }) ]

/-- The key list of `base_fields`, in source order. -/
def baseFieldNames : List String := base_fields.map Prod.fst

/-- `generate_field_mapping` (app.py:279-322): starts from `base_fields`,
then conditionally assigns extra keys based on `supports`; each Python
dict assignment is an `updList`.  The slug argument is never used. -/
def generate_field_mapping (cpt_slug : String) (supports : List String) :
    List (String × FieldSpec) :=
  let f0 := base_fields
  let f1 := if "title" ∈ supports then
      updList f0 "title" { ftype := "object", description := "The title for the post" }
    else f0
  let f2 := if "editor" ∈ supports then
      updList f1 "content" { ftype := "object", description := "The content for the post" }
    else f1
  let f3 := if "excerpt" ∈ supports then
      updList f2 "excerpt" { ftype := "object", description := "The excerpt for the post" }
    else f2
  let f4 := if "author" ∈ supports then
      updList f3 "author" { ftype := "integer", description := "The ID for the author of the post" }
    else f3
  let f5 := if "thumbnail" ∈ supports then
      updList f4 "featured_media"
        { ftype := "integer", description := "The ID of the featured media for the post" }
    else f4
  let f6 := if "comments" ∈ supports then
      updList
        (updList f5 "comment_status"
          { ftype := "string", enum := ["open", "closed"],
            description := "Whether or not comments are open on the post" })
        "ping_status"
        { ftype := "string", enum := ["open", "closed"],
          description := "Whether or not the post can be pinged" }
    else f5
  let f7 := if "page-attributes" ∈ supports then
      updList
        (updList f6 "menu_order"
          { ftype := "integer",
            description := "The order of the post in relation to other posts" })
        "parent"
        { ftype := "integer", description := "The ID for the parent of the post" }
    else f6
  f7

/-- The one-entry catalog of end-to-end scenario A. -/
def bookCatalog : List (String × Val) :=
  [ ("book", .vDict
      [ ("name", .vStr "Books"),
        ("rest_base", .vStr "books"),
        ("supports", .vList [.vStr "title", .vStr "editor"]),
        ("public", .vBool true) ]) ]

/-- What one attempt of the fetch loop observes: an HTTP response with some
status code, or one of the three caught `requests` exception classes
(app.py:213-240). -/
inductive Outcome where
  | status (code : Nat)
  | timeout
  | connError
  | reqExc
  deriving DecidableEq

/-- How `fetch_cpts_advanced` reports: `ok` is the returned result dict;
the terminal error cases each show a distinct `st.error` message and
return `None`; `allAttemptsFailed` is the message after the loop
(app.py:215-245). -/
inductive FetchResult where
  | ok
  | authFailed
  | forbidden
  | notFound
  | connectionError
  | allAttemptsFailed
  deriving DecidableEq

/-- One loop body of `fetch_cpts_advanced` (app.py:211-240): `some r` means
the function returns now with result `r`; `none` means the loop continues
to the next attempt (the warning branch for other HTTP statuses, the
timeout handler, and the generic `RequestException` handler all fall
through to the next iteration). -/
def attemptStep (o : Outcome) : Option FetchResult :=
  match o with
  | .status c =>
      if c = 200 then some .ok
      else if c = 401 then some .authFailed
      else if c = 403 then some .forbidden
      else if c = 404 then some .notFound
      else none
  | .timeout => none
  | .connError => some .connectionError
  | .reqExc => none

/-- The retry loop `for attempt in range(retries)` (app.py:210-246):
`i` is the index of the next attempt, the fuel is the number of attempts
still allowed.  Returns the result together with the number of attempts
actually issued. -/
def fetchRun (resp : Nat → Outcome) : Nat → Nat → FetchResult × Nat
  | i, 0 => (.allAttemptsFailed, i)
  | i, fuel + 1 =>
      match attemptStep (resp i) with
      | some r => (r, i + 1)
      | none => fetchRun resp (i + 1) fuel

/-- `fetch_cpts_advanced` (app.py:191-246), restricted to its retry loop:
the behaviour of the server is an oracle from attempt index to outcome. -/
def fetch_cpts_advanced (resp : Nat → Outcome) (retries : Nat) : FetchResult × Nat :=
  fetchRun resp 0 retries

/-- A server that answers HTTP 500 once and then 200: the loop retries
after the 500 although no timeout or request-exception occurred. -/
def respC2 : Nat → Outcome :=
  fun i => if i = 0 then .status 500 else .status 200

/-- UTF-8 bytes of one character, as `str.encode()` produces them. -/
def utf8Bytes (c : Char) : List Nat :=
  let n := c.toNat
  if n < 128 then [n]
  else if n < 2048 then [192 + n / 64, 128 + n % 64]
  else if n < 65536 then [224 + n / 4096, 128 + (n / 64) % 64, 128 + n % 64]
  else [240 + n / 262144, 128 + (n / 4096) % 64, 128 + (n / 64) % 64, 128 + n % 64]

/-- UTF-8 byte sequence of a string (`credentials.encode()`). -/
def strBytes (s : String) : List Nat :=
  s.data.flatMap utf8Bytes

/-- The base64 alphabet used by `base64.b64encode`. -/
def b64Alphabet : List Char :=
  "ABCDEFGHIJKLMNOPQRSTUVWXYZabcdefghijklmnopqrstuvwxyz0123456789+/".data

/-- One base64 digit. -/
def b64Char (n : Nat) : Char :=
  b64Alphabet.getD n 'A'

/-- Standard base64 of a byte list, three bytes to four digits with
trailing padding. -/
def b64Chunks : List Nat → List Char
  | b0 :: b1 :: b2 :: rest =>
      b64Char (b0 / 4) :: b64Char ((b0 % 4) * 16 + b1 / 16) ::
      b64Char ((b1 % 16) * 4 + b2 / 64) :: b64Char (b2 % 64) :: b64Chunks rest
  | [b0, b1] =>
      [b64Char (b0 / 4), b64Char ((b0 % 4) * 16 + b1 / 16), b64Char ((b1 % 16) * 4), '=']
  | [b0] =>
      [b64Char (b0 / 4), b64Char ((b0 % 4) * 16), '=', '=']
  | [] => []

/-- `base64.b64encode(s.encode()).decode()`. -/
def base64Encode (s : String) : String :=
  ⟨b64Chunks (strBytes s)⟩

/-- The auth setup phase of `fetch_cpts_advanced` (app.py:197-205) as it
acts on the caller's `headers` dict (which the Python code mutates in
place): Application Password and JWT write the `Authorization` key; the
Basic Auth branch only sets `session.auth`, and every other auth type has
no branch, so the headers dict is returned unchanged. -/
def authSetupHeaders (auth_config headers : List (String × String)) :
    List (String × String) :=
  if alookup auth_config "type" = some "Basic Auth" then
    headers
  else if alookup auth_config "type" = some "Application Password" then
    updList headers "Authorization"
      ("Basic " ++ base64Encode
        (((alookup auth_config "username").getD "") ++ ":" ++
         ((alookup auth_config "password").getD "")))
  else if alookup auth_config "type" = some "JWT Token" then
    updList headers "Authorization"
      ("Bearer " ++ ((alookup auth_config "token").getD ""))
  else
    headers

/-- Collection endpoint `f"{base_url}/wp-json/wp/v2/{cpt_slug}"` (app.py:877). -/
def cptEndpoint (base_url slug : String) : String :=
  base_url ++ "/wp-json/wp/v2/" ++ slug

/-- The `delete_soft` template dict (app.py:1046-1052). -/
def delete_soft (endpoint : String) : Val :=
  .vDict
    [ ("method", .vStr "DELETE"),
      ("url", .vStr (endpoint ++ "/\x7b\x7bpost_id\x7d\x7d")),
      ("queryParameters", .vDict [("force", .vBool false)]) ]

/-- The `delete_hard` template dict (app.py:1057-1063). -/
def delete_hard (endpoint : String) : Val :=
  .vDict
    [ ("method", .vStr "DELETE"),
      ("url", .vStr (endpoint ++ "/\x7b\x7bpost_id\x7d\x7d")),
      ("queryParameters", .vDict [("force", .vBool true)]) ]

/-- Overwrite the `queryParameters` part of a template with a single
`force` flag; used to state that the two DELETE variants differ only in
that flag. -/
def setForceFlag (v : Val) (b : Bool) : Val :=
  match v with
  | .vDict kvs => .vDict (updList kvs "queryParameters" (.vDict [("force", .vBool b)]))
  | v => v

/-- Python `str.title()` on a slug: uppercase an alphabetic character that
does not follow an alphabetic character, lowercase the others. -/
def pyTitleGo : List Char → Bool → List Char
  | [], _ => []
  | c :: rest, prevAlpha =>
      (if c.isAlpha then (if prevAlpha then c.toLower else c.toUpper) else c) ::
        pyTitleGo rest c.isAlpha

/-- Python `str.title()`. -/
def pyTitle (s : String) : String :=
  ⟨pyTitleGo s.data false⟩

/-- Python `str.upper()` (ASCII range, enough for slugs). -/
def pyUpper (s : String) : String :=
  s.toUpper

/-- One Postman folder per CPT (app.py:745-762). -/
def postmanFolder (cpt_slug : String) : Val :=
  .vDict
    [ ("name", .vStr (pyTitle cpt_slug ++ " Operations")),
      ("item", .vList
        [ .vDict
            [ ("name", .vStr ("Get All " ++ cpt_slug)),
              ("request", .vDict
                [ ("method", .vStr "GET"),
                  ("header", .vList []),
                  ("url", .vDict
                    [ ("raw", .vStr ("\x7b\x7bbase_url\x7d\x7d/wp-json/wp/v2/" ++
                        cpt_slug ++ "?per_page=100")),
                      ("host", .vList [.vStr "\x7b\x7bbase_url\x7d\x7d"]),
                      ("path", .vList [.vStr "wp-json", .vStr "wp", .vStr "v2",
                        .vStr cpt_slug]),
                      ("query", .vList [.vDict [("key", .vStr "per_page"),
                        ("value", .vStr "100")]]) ]) ]) ] ]) ]

/-- `generate_export_data` (app.py:730-782), modelled at the level of the
document structure handed to the serializer: the Postman branch builds a
collection skeleton, the YAML branch wraps analysis and catalog, and the
plain-JSON fallback additionally appends `generated_at` with the current
time (`now`).  `json.dumps`/`yaml.dump` are deterministic injective
encodings of this structure, so the claims about the exported text are
stated on the structure itself. -/
def generate_export_data (cpt_data : List (String × Val)) (analysis : Val)
    (format_type : String) (now : String) : Val :=
  if format_type = "Postman Collection" then
    .vDict
      [ ("info", .vDict
          [ ("name", .vStr "WordPress CPT API Collection"),
            ("description", .vStr "Generated WordPress Custom Post Types API collection"),
            ("schema", .vStr "https://schema.getpostman.com/json/collection/v2.1.0/collection.json") ]),
        ("item", .vList (cpt_data.map (fun p => postmanFolder p.1))) ]
  else if format_type = "YAML" then
    .vDict
      [ ("wordpress_cpt_api", .vDict
          [ ("analysis", analysis),
            ("cpts", .vDict cpt_data) ]) ]
  else
    .vDict
      [ ("analysis", analysis),
        ("cpts", .vDict cpt_data),
        ("generated_at", .vStr now) ]

/-- The `functionCode` string of the Process Data node (app.py:556-582),
with the f-string interpolation of the slug applied. -/
def processFunctionCode (cpt_slug : String) : String :=
  "\n// Process and validate fetched " ++ cpt_slug ++ " data\nconst items = $input.all();\nconst processedItems = [];\n\nfor (const item of items) \x7b\n    const processedItem = \x7b\n        id: item.json.id,\n        title: item.json.title?.rendered || item.json.title || \x27Untitled\x27,\n        content: item.json.content?.rendered || item.json.content || \x27\x27,\n        excerpt: item.json.excerpt?.rendered || item.json.excerpt || \x27\x27,\n        status: item.json.status || \x27draft\x27,\n        date: item.json.date,\n        modified: item.json.modified,\n        author: item.json.author,\n        link: item.json.link,\n        customFields: item.json.meta || \x7b\x7d,\n        // Add validation flags\n        isValid: !!(item.json.title && item.json.content),\n        needsUpdate: false\n    \x7d;\n    \n    processedItems.push(\x7b json: processedItem \x7d);\n\x7d\n\nreturn processedItems;\n"

/-- The `complete_crud` workflow document (app.py:532-683). -/
def n8nCompleteCrud (cpt_slug endpoint : String) : Val :=
  .vDict
    [ ("name", .vStr ("WordPress " ++ pyUpper cpt_slug ++ " - Complete CRUD Operations")),
      ("nodes", .vList
        [ .vDict
            [ ("parameters", .vDict
                [ ("httpMethod", .vStr "GET"),
                  ("url", .vStr endpoint),
                  ("options", .vDict
                    [ ("queryParameters", .vDict
                        [ ("per_page", .vStr "100"),
                          ("orderby", .vStr "date"),
                          ("order", .vStr "desc"),
                          ("status", .vStr "publish") ]) ]) ]),
              ("name", .vStr ("Fetch All " ++ pyTitle cpt_slug)),
              ("type", .vStr "n8n-nodes-base.httpRequest"),
              ("typeVersion", .vNat 3),
              ("position", .vList [.vNat 250, .vNat 200]),
              ("id", .vStr "fetch_all") ],
          .vDict
            [ ("parameters", .vDict [("functionCode", .vStr (processFunctionCode cpt_slug))]),
              ("name", .vStr "Process Data"),
              ("type", .vStr "n8n-nodes-base.function"),
              ("typeVersion", .vNat 1),
              ("position", .vList [.vNat 450, .vNat 200]),
              ("id", .vStr "process_data") ],
          .vDict
            [ ("parameters", .vDict
                [ ("conditions", .vDict
                    [ ("string", .vList
                        [ .vDict
                            [ ("value1", .vStr "=\x7b\x7b$json.isValid\x7d\x7d"),
                              ("operation", .vStr "equal"),
                              ("value2", .vStr "true") ] ]) ]) ]),
              ("name", .vStr "Filter Valid Items"),
              ("type", .vStr "n8n-nodes-base.filter"),
              ("typeVersion", .vNat 1),
              ("position", .vList [.vNat 650, .vNat 200]),
              ("id", .vStr "filter_valid") ],
          .vDict
            [ ("parameters", .vDict
                [ ("httpMethod", .vStr "POST"),
                  ("url", .vStr endpoint),
                  ("body", .vDict
                    [ ("title", .vStr "=\x7b\x7b$json.title\x7d\x7d"),
                      ("content", .vStr "=\x7b\x7b$json.content\x7d\x7d"),
                      ("excerpt", .vStr "=\x7b\x7b$json.excerpt\x7d\x7d"),
                      ("status", .vStr "=\x7b\x7b$json.status || \x27draft\x27\x7d\x7d"),
                      ("author", .vStr "=\x7b\x7b$json.author\x7d\x7d"),
                      ("meta", .vStr "=\x7b\x7b$json.customFields\x7d\x7d") ]) ]),
              ("name", .vStr ("Create New " ++ pyTitle cpt_slug)),
              ("type", .vStr "n8n-nodes-base.httpRequest"),
              ("typeVersion", .vNat 3),
              ("position", .vList [.vNat 450, .vNat 400]),
              ("id", .vStr "create_new") ],
          .vDict
            [ ("parameters", .vDict
                [ ("httpMethod", .vStr "PUT"),
                  ("url", .vStr (endpoint ++ "/\x7b\x7b$json.id\x7d\x7d")),
                  ("body", .vDict
                    [ ("title", .vStr "=\x7b\x7b$json.title\x7d\x7d"),
                      ("content", .vStr "=\x7b\x7b$json.content\x7d\x7d"),
                      ("excerpt", .vStr "=\x7b\x7b$json.excerpt\x7d\x7d"),
                      ("status", .vStr "=\x7b\x7b$json.status\x7d\x7d"),
                      ("author", .vStr "=\x7b\x7b$json.author\x7d\x7d"),
                      ("meta", .vStr "=\x7b\x7b$json.customFields\x7d\x7d") ]) ]),
              ("name", .vStr ("Update " ++ pyTitle cpt_slug)),
              ("type", .vStr "n8n-nodes-base.httpRequest"),
              ("typeVersion", .vNat 3),
              ("position", .vList [.vNat 850, .vNat 200]),
              ("id", .vStr "update_item") ],
          .vDict
            [ ("parameters", .vDict
                [ ("httpMethod", .vStr "DELETE"),
                  ("url", .vStr (endpoint ++ "/\x7b\x7b$json.id\x7d\x7d")),
                  ("options", .vDict
                    [ ("queryParameters", .vDict [("force", .vStr "true")]) ]) ]),
              ("name", .vStr ("Delete " ++ pyTitle cpt_slug)),
              ("type", .vStr "n8n-nodes-base.httpRequest"),
              ("typeVersion", .vNat 3),
              ("position", .vList [.vNat 850, .vNat 400]),
              ("id", .vStr "delete_item") ] ]),
      ("connections", .vDict
        [ ("Fetch All", .vDict
            [ ("main", .vList
                [ .vList
                    [ .vDict [("node", .vStr "Process Data"), ("type", .vStr "main"),
                        ("index", .vNat 0)] ] ]) ]),
          ("Process Data", .vDict
            [ ("main", .vList
                [ .vList
                    [ .vDict [("node", .vStr "Filter Valid Items"), ("type", .vStr "main"),
                        ("index", .vNat 0)] ] ]) ]),
          ("Filter Valid Items", .vDict
            [ ("main", .vList
                [ .vList
                    [ .vDict [("node", .vStr ("Update " ++ pyTitle cpt_slug)),
                        ("type", .vStr "main"), ("index", .vNat 0)],
                      .vDict [("node", .vStr ("Delete " ++ pyTitle cpt_slug)),
                        ("type", .vStr "main"), ("index", .vNat 0)] ] ]) ]) ]) ]

/-- The `sync_workflow` document (app.py:686-725). -/
def n8nSyncWorkflow (cpt_slug endpoint : String) : Val :=
  .vDict
    [ ("name", .vStr ("WordPress " ++ pyUpper cpt_slug ++ " - Data Sync")),
      ("nodes", .vList
        [ .vDict
            [ ("parameters", .vDict
                [ ("rule", .vDict
                    [ ("interval", .vList
                        [ .vDict [("field", .vStr "cronExpression"),
                            ("value", .vStr "0 */6 * * *")] ]) ]) ]),
              ("name", .vStr "Schedule Trigger"),
              ("type", .vStr "n8n-nodes-base.scheduleTrigger"),
              ("typeVersion", .vNat 1),
              ("position", .vList [.vNat 100, .vNat 200]),
              ("id", .vStr "schedule_trigger") ],
          .vDict
            [ ("parameters", .vDict
                [ ("httpMethod", .vStr "GET"),
                  ("url", .vStr endpoint),
                  ("options", .vDict
                    [ ("queryParameters", .vDict
                        [ ("modified_after",
                           .vStr "=\x7b\x7bDateTime.now().minus(\x7bhours: 6\x7d).toISO()\x7d\x7d") ]) ]) ]),
              ("name", .vStr "Fetch Recent Changes"),
              ("type", .vStr "n8n-nodes-base.httpRequest"),
              ("typeVersion", .vNat 3),
              ("position", .vList [.vNat 300, .vNat 200]),
              ("id", .vStr "fetch_recent") ] ]),
      ("connections", .vDict
        [ ("Schedule Trigger", .vDict
            [ ("main", .vList
                [ .vList
                    [ .vDict [("node", .vStr "Fetch Recent Changes"),
                        ("type", .vStr "main"), ("index", .vNat 0)] ] ]) ]) ]) ]

/-- `generate_n8n_workflows` (app.py:525-727): note that the
`field_mapping` parameter appears nowhere in the body, exactly as in the
source. -/
def generate_n8n_workflows (cpt_slug endpoint : String)
    (field_mapping : List (String × FieldSpec)) : Val :=
  .vDict
    [ ("complete_crud", n8nCompleteCrud cpt_slug endpoint),
      ("sync_workflow", n8nSyncWorkflow cpt_slug endpoint) ]

/-- Key list of the request body of node `i` of the `complete_crud`
workflow inside a generated workflow set. -/
def crudBodyKeys (w : Val) (i : Nat) : Option (List String) :=
  ((((w.dget "complete_crud").bind (fun v => v.dget "nodes")).bind
      (fun v => v.iget i)).bind (fun v => v.dget "parameters")).bind
    (fun v => (v.dget "body").bind Val.keysOf)

/-- Key list of `generate_field_mapping`: the twelve base keys in source
order, then one block per `supports` rule, in rule order. -/
theorem gfm_keys (slug : String) (supports : List String) :
    (generate_field_mapping slug supports).map Prod.fst =
      baseFieldNames
        ++ (if "title" ∈ supports then ["title"] else [])
        ++ (if "editor" ∈ supports then ["content"] else [])
        ++ (if "excerpt" ∈ supports then ["excerpt"] else [])
        ++ (if "author" ∈ supports then ["author"] else [])
        ++ (if "thumbnail" ∈ supports then ["featured_media"] else [])
        ++ (if "comments" ∈ supports then ["comment_status", "ping_status"] else [])
        ++ (if "page-attributes" ∈ supports then ["menu_order", "parent"] else []) := by
  by_cases h1 : "title" ∈ supports <;>
  by_cases h2 : "editor" ∈ supports <;>
  by_cases h3 : "excerpt" ∈ supports <;>
  by_cases h4 : "author" ∈ supports <;>
  by_cases h5 : "thumbnail" ∈ supports <;>
  by_cases h6 : "comments" ∈ supports <;>
  by_cases h7 : "page-attributes" ∈ supports <;>
  simp only [generate_field_mapping, h1, h2, h3, h4, h5, h6, h7, if_true, if_false,
    ite_true, ite_false] <;>
  rfl

/-- If every value of the catalog up to some malformed entry is scanned,
the analyzer loop raises `AttributeError` as soon as it reaches a value
that is not a dict. -/
theorem analyzeEntries_error :
    ∀ (l : List (String × Val)) (a : Analysis),
      (∃ p ∈ l, p.2.isDict = false) → analyzeEntries l a = .error "AttributeError" := by
  intro l
  induction l with
  | nil =>
      intro a h
      obtain ⟨p, hp, _⟩ := h
      exact absurd hp (List.not_mem_nil p)
  | cons hd tl ih =>
      intro a h
      obtain ⟨p, hp, hnd⟩ := h
      obtain ⟨s, d⟩ := hd
      cases d with
      | vDict kvs =>
          have hp2 : p ∈ tl := by
            rcases List.mem_cons.mp hp with h1 | h1
            · subst h1; simp [Val.isDict] at hnd
            · exact h1
          simp only [analyzeEntries, analyzeStep]
          exact ih _ ⟨p, hp2, hnd⟩
      | vStr s2 => rfl
      | vBool b => rfl
      | vNat n => rfl
      | vList xs => rfl

/-- The attempt counter never exceeds the starting index plus the fuel. -/
theorem fetchRun_attempts_le (resp : Nat → Outcome) :
    ∀ (fuel i : Nat), (fetchRun resp i fuel).2 ≤ i + fuel := by
  intro fuel
  induction fuel with
  | zero => intro i; exact Nat.le_refl i
  | succ n ih =>
      intro i
      simp only [fetchRun]
      cases h : attemptStep (resp i) with
      | some r =>
          show i + 1 ≤ i + (n + 1)
          omega
      | none =>
          show (fetchRun resp (i + 1) n).2 ≤ i + (n + 1)
          have := ih (i + 1)
          omega

/-- Any attempt that was followed by another attempt ended in a
non-terminal outcome. -/
theorem fetchRun_retry_cond (resp : Nat → Outcome) :
    ∀ (fuel i j : Nat), i ≤ j → j + 1 < (fetchRun resp i fuel).2 →
      attemptStep (resp j) = none := by
  intro fuel
  induction fuel with
  | zero =>
      intro i j hij hlt
      have hlt2 : j + 1 < i := hlt
      exact absurd hlt2 (by omega)
  | succ n ih =>
      intro i j hij hlt
      simp only [fetchRun] at hlt
      cases h : attemptStep (resp i) with
      | some r =>
          rw [h] at hlt
          have hlt2 : j + 1 < i + 1 := hlt
          exact absurd hlt2 (by omega)
      | none =>
          rw [h] at hlt
          have hlt2 : j + 1 < (fetchRun resp (i + 1) n).2 := hlt
          by_cases hji : j = i
          · subst hji; exact h
          · exact ih (i + 1) j (by omega) hlt2

/-- The outcomes on which `attemptStep` continues the loop. -/
theorem attemptStep_none_cases (o : Outcome) (h : attemptStep o = none) :
    o = Outcome.timeout ∨ o = Outcome.reqExc ∨
      ∃ c, o = Outcome.status c ∧ c ≠ 200 ∧ c ≠ 401 ∧ c ≠ 403 ∧ c ≠ 404 := by
  cases o with
  | status c =>
      refine Or.inr (Or.inr ⟨c, rfl, ?_, ?_, ?_, ?_⟩) <;> intro hc <;> subst hc <;>
        simp [attemptStep] at h
  | timeout => exact Or.inl rfl
  | connError => simp [attemptStep] at h
  | reqExc => exact Or.inr (Or.inl rfl)

/-- Appending preserves subsets componentwise. -/
theorem app_sub {α : Type} {a b c d : List α} (h1 : a ⊆ c) (h2 : b ⊆ d) :
    a ++ b ⊆ c ++ d := by
  intro x hx
  rcases List.mem_append.mp hx with h | h
  · exact List.mem_append_left _ (h1 h)
  · exact List.mem_append_right _ (h2 h)

/-- A conditional block grows when its condition is implied. -/
theorem if_block_sub {p q : Prop} [Decidable p] [Decidable q] (hpq : p → q)
    (l : List String) : (if p then l else []) ⊆ (if q then l else []) := by
  by_cases hp : p
  · rw [if_pos hp, if_pos (hpq hp)]
    exact List.Subset.refl l
  · rw [if_neg hp]
    intro x hx
    exact absurd hx (List.not_mem_nil x)

/-- Updating one key leaves every other key's binding unchanged. -/
theorem alookup_upd_ne {β : Type} :
    ∀ (kvs : List (String × β)) (k : String) (v : β) (q : String), q ≠ k →
      alookup (updList kvs k v) q = alookup kvs q := by
  intro kvs
  induction kvs with
  | nil => intro k v q hq; simp [updList, alookup, Ne.symm hq]
  | cons hd tl ih =>
      intro k v q hq
      obtain ⟨k0, v0⟩ := hd
      by_cases hk : k0 = k
      · simp only [updList, if_pos hk, alookup]
        rw [if_neg (by rw [hk]; exact Ne.symm hq), if_neg (by rw [hk]; exact Ne.symm hq)]
      · simp only [updList, if_neg hk, alookup]
        by_cases hq0 : k0 = q
        · rw [if_pos hq0, if_pos hq0]
        · rw [if_neg hq0, if_neg hq0]
          exact ih k v q hq

/-- C1 counterexample: the catalog whose only value is the string
`"invalid"` does not reach the empty-state message — `analyze_cpt_structure`
raises `AttributeError` (there is no validator in this revision), so the
main flow crashes rather than dropping the entry. -/
theorem c1_counterexample :
    mainFlow [("book", Val.vStr "invalid")] = PipelineResult.crash "AttributeError" ∧
    analyze_cpt_structure [("book", Val.vStr "invalid")] =
      Except.error "AttributeError" :=
  ⟨rfl, rfl⟩

/-- C1 (amended): a catalog containing any non-mapping value makes the
main flow crash with `AttributeError`; the empty-state message is shown
exactly when the fetched catalog itself is empty. -/
theorem c1_invalid_entry_crashes :
    (∀ cpt_data : List (String × Val),
        (∃ p ∈ cpt_data, p.2.isDict = false) →
        mainFlow cpt_data = PipelineResult.crash "AttributeError") ∧
    (∀ cpt_data : List (String × Val),
        mainFlow cpt_data = PipelineResult.emptyState ↔ cpt_data = []) := by
  constructor
  · intro cpt_data h
    obtain ⟨p, hp, hnd⟩ := h
    cases cpt_data with
    | nil => exact absurd hp (List.not_mem_nil p)
    | cons hd tl =>
        have herr : analyze_cpt_structure (hd :: tl) = .error "AttributeError" :=
          analyzeEntries_error _ _ ⟨p, hp, hnd⟩
        simp [mainFlow, herr]
  · intro cpt_data
    constructor
    · intro h
      cases cpt_data with
      | nil => rfl
      | cons hd tl =>
          exfalso
          cases hha : analyze_cpt_structure (hd :: tl) with
          | ok a => simp [mainFlow, hha] at h
          | error e => simp [mainFlow, hha] at h
    · intro h
      subst h
      rfl

/-- C1 witness: the amended statement applied to the scenario-B catalog. -/
theorem c1_witness :
    mainFlow [("book", Val.vStr "invalid")] = PipelineResult.crash "AttributeError" :=
  c1_invalid_entry_crashes.1 [("book", Val.vStr "invalid")]
    ⟨("book", Val.vStr "invalid"), List.mem_singleton.mpr rfl, rfl⟩

/-- C2 counterexample: a server answering HTTP 500 then HTTP 200 shows
the loop also retries after a plain non-200/401/403/404 response, so the
client does not retry only on timeout or request-exception outcomes. -/
theorem c2_counterexample :
    fetch_cpts_advanced respC2 3 = (FetchResult.ok, 2) ∧
    respC2 0 ≠ Outcome.timeout ∧ respC2 0 ≠ Outcome.reqExc ∧
    respC2 0 = Outcome.status 500 :=
  ⟨rfl, by decide, by decide, rfl⟩

/-- C2 (amended): the loop retries exactly on timeout, generic
request-exception, or an HTTP status other than 200/401/403/404, issuing
at most `retries` attempts; two timeouts then success with 3 retries give
3 attempts and the successful result; an always-404 server gets exactly
one attempt and the not-found error; a connection error on the first
attempt aborts immediately after one attempt. -/
theorem c2_retry_policy :
    (∀ (resp : Nat → Outcome) (retries j : Nat),
        j + 1 < (fetch_cpts_advanced resp retries).2 →
          resp j = Outcome.timeout ∨ resp j = Outcome.reqExc ∨
            ∃ c, resp j = Outcome.status c ∧ c ≠ 200 ∧ c ≠ 401 ∧ c ≠ 403 ∧ c ≠ 404) ∧
    (∀ (resp : Nat → Outcome) (retries : Nat),
        (fetch_cpts_advanced resp retries).2 ≤ retries) ∧
    fetch_cpts_advanced (fun i => if i < 2 then Outcome.timeout else Outcome.status 200) 3 =
      (FetchResult.ok, 3) ∧
    (∀ retries : Nat, 1 ≤ retries →
        fetch_cpts_advanced (fun _ => Outcome.status 404) retries =
          (FetchResult.notFound, 1)) ∧
    (∀ (resp : Nat → Outcome) (retries : Nat), 1 ≤ retries →
        resp 0 = Outcome.connError →
        fetch_cpts_advanced resp retries = (FetchResult.connectionError, 1)) := by
  refine ⟨?_, ?_, ?_, ?_, ?_⟩
  · intro resp retries j hlt
    exact attemptStep_none_cases _ (fetchRun_retry_cond resp retries 0 j (Nat.zero_le j) hlt)
  · intro resp retries
    simpa using fetchRun_attempts_le resp retries 0
  · rfl
  · intro retries h
    cases retries with
    | zero => omega
    | succ n => rfl
  · intro resp retries h h0
    cases retries with
    | zero => omega
    | succ n =>
        show fetchRun resp 0 (n + 1) = _
        simp [fetchRun, h0, attemptStep]

/-- C2 witness: the amended statement applied to an always-404 server with
3 retries and to the attempts bound at 2 retries. -/
theorem c2_witness :
    fetch_cpts_advanced (fun _ => Outcome.status 404) 3 = (FetchResult.notFound, 1) ∧
    (fetch_cpts_advanced (fun _ => Outcome.connError) 2).2 ≤ 2 :=
  ⟨c2_retry_policy.2.2.2.1 3 (by omega), c2_retry_policy.2.1 _ 2⟩

/-- C3 counterexample: with empty `supports` the mapping is exactly the
base field set, which has twelve keys, not eleven. -/
theorem c3_counterexample :
    (generate_field_mapping "post" []).map Prod.fst = baseFieldNames ∧
    baseFieldNames.length = 12 ∧ ¬ baseFieldNames.length = 11 :=
  ⟨rfl, rfl, by decide⟩

/-- C3 (amended): for every slug and supports list the mapping starts
with the fixed base set of exactly twelve fields (id, date, date_gmt,
guid, modified, modified_gmt, password, slug, status, type, link, meta),
present regardless of `supports`. -/
theorem c3_base_fields :
    baseFieldNames.length = 12 ∧
    ∀ (slug : String) (supports : List String),
      ((generate_field_mapping slug supports).map Prod.fst).take 12 = baseFieldNames := by
  refine ⟨rfl, fun slug supports => ?_⟩
  rw [gfm_keys]
  have h12 : (12 : Nat) = baseFieldNames.length := rfl
  rw [h12]
  simp only [List.append_assoc]
  exact List.take_left _ _

/-- C4 counterexample: the scenario-A mapping has 14 fields, not 13. -/
theorem c4_counterexample :
    (generate_field_mapping "book" ["title", "editor"]).length = 14 ∧
    ¬ (14 : Nat) = 13 :=
  ⟨rfl, by decide⟩

/-- C4 (amended): scenario A yields the twelve base fields plus `title`
and `content` (14 fields), excludes `author` and `featured_media`, and the
analysis of the one-entry catalog reports `total_cpts = 1` and
`public_cpts = ["book"]`. -/
theorem c4_scenario_a :
    (generate_field_mapping "book" ["title", "editor"]).map Prod.fst =
      ["id", "date", "date_gmt", "guid", "modified", "modified_gmt", "password",
       "slug", "status", "type", "link", "meta", "title", "content"] ∧
    "author" ∉ (generate_field_mapping "book" ["title", "editor"]).map Prod.fst ∧
    "featured_media" ∉ (generate_field_mapping "book" ["title", "editor"]).map Prod.fst ∧
    (analyze_cpt_structure bookCatalog).map (fun a => (a.total_cpts, a.public_cpts)) =
      Except.ok (1, ["book"]) :=
  ⟨rfl, by decide, by decide, rfl⟩

/-- C5: the conditional fields are added exactly by the seven `supports`
rules, with the base fields first and the conditional fields in rule
order; the result is a function of the slug and supports list alone. -/
theorem c5_conditional_fields :
    ∀ (slug : String) (supports : List String),
      (generate_field_mapping slug supports).map Prod.fst =
        baseFieldNames
          ++ (if "title" ∈ supports then ["title"] else [])
          ++ (if "editor" ∈ supports then ["content"] else [])
          ++ (if "excerpt" ∈ supports then ["excerpt"] else [])
          ++ (if "author" ∈ supports then ["author"] else [])
          ++ (if "thumbnail" ∈ supports then ["featured_media"] else [])
          ++ (if "comments" ∈ supports then ["comment_status", "ping_status"] else [])
          ++ (if "page-attributes" ∈ supports then ["menu_order", "parent"] else []) :=
  gfm_keys

/-- C6: appending a capability to `supports` never removes a field from
the generated mapping. -/
theorem c6_supports_monotonic :
    ∀ (slug : String) (s : List String) (c name : String),
      name ∈ (generate_field_mapping slug s).map Prod.fst →
      name ∈ (generate_field_mapping slug (s ++ [c])).map Prod.fst := by
  intro slug s c name h
  rw [gfm_keys] at h ⊢
  have hsub : ∀ x : String, x ∈ s → x ∈ s ++ [c] :=
    fun x hx => List.mem_append_left _ hx
  refine app_sub (app_sub (app_sub (app_sub (app_sub (app_sub (app_sub
    (List.Subset.refl baseFieldNames)
    (if_block_sub (hsub "title") _))
    (if_block_sub (hsub "editor") _))
    (if_block_sub (hsub "excerpt") _))
    (if_block_sub (hsub "author") _))
    (if_block_sub (hsub "thumbnail") _))
    (if_block_sub (hsub "comments") _))
    (if_block_sub (hsub "page-attributes") _) h

/-- C6 witness: monotonicity applied to slug `book`, supports `["title"]`
and new capability `editor`. -/
theorem c6_witness :
    "title" ∈ (generate_field_mapping "book" (["title"] ++ ["editor"])).map Prod.fst :=
  c6_supports_monotonic "book" ["title"] "editor" "title" (by decide)

/-- C7: the two DELETE templates share the method `DELETE` and the item
URL `endpoint/{{post_id}}`, carry `force = false` (soft) and
`force = true` (hard), and each equals the other with only the `force`
flag replaced. -/
theorem c7_delete_templates :
    ∀ endpoint : String,
      (delete_soft endpoint).dget "queryParameters" =
        some (Val.vDict [("force", Val.vBool false)]) ∧
      (delete_hard endpoint).dget "queryParameters" =
        some (Val.vDict [("force", Val.vBool true)]) ∧
      (delete_soft endpoint).dget "method" = some (Val.vStr "DELETE") ∧
      (delete_hard endpoint).dget "method" = some (Val.vStr "DELETE") ∧
      (delete_soft endpoint).dget "url" =
        some (Val.vStr (endpoint ++ "/\x7b\x7bpost_id\x7d\x7d")) ∧
      (delete_hard endpoint).dget "url" = (delete_soft endpoint).dget "url" ∧
      delete_hard endpoint = setForceFlag (delete_soft endpoint) true ∧
      delete_soft endpoint = setForceFlag (delete_hard endpoint) false :=
  fun _ => ⟨rfl, rfl, rfl, rfl, rfl, rfl, rfl, rfl⟩

/-- C8: stripping `generated_at` from the JSON export document recovers
exactly the analysis plus the original catalog; the YAML and Postman
documents do not depend on the generation time at all (so serializing
them is byte-for-byte deterministic for fixed input), and only the JSON
document carries the `generated_at` key. -/
theorem c8_export_roundtrip :
    ∀ (cpt_data : List (String × Val)) (analysis : Val) (now now2 : String),
      removeKey (generate_export_data cpt_data analysis "JSON" now) "generated_at" =
        Val.vDict [("analysis", analysis), ("cpts", Val.vDict cpt_data)] ∧
      (generate_export_data cpt_data analysis "JSON" now).keysOf =
        some ["analysis", "cpts", "generated_at"] ∧
      generate_export_data cpt_data analysis "YAML" now =
        generate_export_data cpt_data analysis "YAML" now2 ∧
      generate_export_data cpt_data analysis "Postman Collection" now =
        generate_export_data cpt_data analysis "Postman Collection" now2 ∧
      (generate_export_data cpt_data analysis "YAML" now).keysOf =
        some ["wordpress_cpt_api"] :=
  fun _ _ _ _ => ⟨rfl, rfl, rfl, rfl, rfl⟩

/-- C9: the auth setup writes `Authorization: Basic base64(user:pass)`
for Application Password, `Authorization: Bearer token` for JWT, leaves
the headers untouched for every other auth type, and never changes the
binding of any key other than `Authorization`. -/
theorem c9_auth_headers :
    ∀ (auth_config headers : List (String × String)),
      (alookup auth_config "type" = some "Application Password" →
        authSetupHeaders auth_config headers =
          updList headers "Authorization"
            ("Basic " ++ base64Encode
              (((alookup auth_config "username").getD "") ++ ":" ++
               ((alookup auth_config "password").getD "")))) ∧
      (alookup auth_config "type" = some "JWT Token" →
        authSetupHeaders auth_config headers =
          updList headers "Authorization"
            ("Bearer " ++ ((alookup auth_config "token").getD ""))) ∧
      (∀ t : Option String, alookup auth_config "type" = t →
        t ≠ some "Application Password" → t ≠ some "JWT Token" →
        authSetupHeaders auth_config headers = headers) ∧
      (∀ q : String, q ≠ "Authorization" →
        alookup (authSetupHeaders auth_config headers) q = alookup headers q) := by
  intro auth_config headers
  refine ⟨?_, ?_, ?_, ?_⟩
  · intro h
    simp [authSetupHeaders, h]
  · intro h
    simp [authSetupHeaders, h]
  · intro t ht h1 h2
    simp only [authSetupHeaders, ht]
    by_cases hb : t = some "Basic Auth"
    · rw [if_pos hb]
    · rw [if_neg hb, if_neg h1, if_neg h2]
  · intro q hq
    simp only [authSetupHeaders]
    by_cases h1 : alookup auth_config "type" = some "Basic Auth"
    · rw [if_pos h1]
    · rw [if_neg h1]
      by_cases h2 : alookup auth_config "type" = some "Application Password"
      · rw [if_pos h2]
        exact alookup_upd_ne headers "Authorization" _ q hq
      · rw [if_neg h2]
        by_cases h3 : alookup auth_config "type" = some "JWT Token"
        · rw [if_pos h3]
          exact alookup_upd_ne headers "Authorization" _ q hq
        · rw [if_neg h3]

/-- C9 witness: the two header-writing branches evaluated on concrete
configurations. -/
theorem c9_witness :
    authSetupHeaders
        [("type", "Application Password"), ("username", "user"), ("password", "pass")]
        [("Content-Type", "application/json")] =
      [("Content-Type", "application/json"), ("Authorization", "Basic dXNlcjpwYXNz")] ∧
    authSetupHeaders [("type", "JWT Token"), ("token", "tok")]
        [("Content-Type", "application/json")] =
      [("Content-Type", "application/json"), ("Authorization", "Bearer tok")] := by
  constructor
  · have h := (c9_auth_headers
        [("type", "Application Password"), ("username", "user"), ("password", "pass")]
        [("Content-Type", "application/json")]).1 rfl
    rw [h]
    decide
  · have h := (c9_auth_headers [("type", "JWT Token"), ("token", "tok")]
        [("Content-Type", "application/json")]).2.1 rfl
    rw [h]
    decide

/-- C10: the generated workflow set is independent of the field mapping
argument, and both the create and the update request bodies use the fixed
key set title, content, excerpt, status, author, meta. -/
theorem c10_field_mapping_independent :
    ∀ (cpt_slug endpoint : String) (f1 f2 : List (String × FieldSpec)),
      generate_n8n_workflows cpt_slug endpoint f1 =
        generate_n8n_workflows cpt_slug endpoint f2 ∧
      crudBodyKeys (generate_n8n_workflows cpt_slug endpoint f1) 3 =
        some ["title", "content", "excerpt", "status", "author", "meta"] ∧
      crudBodyKeys (generate_n8n_workflows cpt_slug endpoint f1) 4 =
        some ["title", "content", "excerpt", "status", "author", "meta"] :=
  fun _ _ _ _ => ⟨rfl, rfl, rfl⟩

end Cpt
